import Mathlib

/-!
Verification development for the LogArc JavaScript client (`src/index.js`).

The client is a single class `LogArcService` plus an enum-like constant
`AppEnv` and two error classes.  This file shallowly embeds the data model
and the operations of `src/index.js`:

* JavaScript values that flow through the client (config fields, message,
  data, user, response bodies) are modelled by the inductive `JValue`;
  truthiness mirrors JavaScript coercion for the constructors modelled.
* The constructor and `getProjectKey` become the pure function
  `LogArcService.make` returning `Except JsError LogArcService`; a thrown
  exception is an `Except.error`.  The constructor performs no I/O, which
  the embedding reflects by `make` not taking a transport oracle at all.
* The HTTP transport (axios) is modelled by an oracle
  `server : LogPayload → HttpOutcome`: axios resolves exactly for 2xx
  statuses, rejects with a response-carrying error for other statuses, and
  rejects with a response-less error on network failure.
* `console.error` diagnostics are collected in a `List Diagnostic`
  alongside the call result, in emission order.
* The current wall-clock time in the configured timezone, as produced by
  `moment().tz(timezone)`, is an input `LocalTime` (timezone arithmetic is
  delegated to moment-timezone and out of scope); the format string
  `YYYY-MM-DDTHH:mm:ss[Z]` is modelled by `formatTimestamp`.
* The runtime stack string, already split on newlines as in
  `new Error().stack.split("\n")`, is an input `List String`.
-/

/-- JavaScript values as far as the client manipulates them: `undefined`,
`null`, booleans, numbers (floats restricted to integers; `NaN` not
modelled), strings, arrays and objects. -/
inductive JValue where
  | undefined : JValue
  | null : JValue
  | bool (b : Bool) : JValue
  | num (n : Int) : JValue
  | str (s : String) : JValue
  | arr (elems : List JValue) : JValue
  | obj (fields : List (String × JValue)) : JValue

/-- JavaScript truthiness for the modelled constructors: `undefined`,
`null`, `false`, `0` and `""` are falsy; every array or object is truthy. -/
def JValue.truthy : JValue → Bool
  | .undefined => false
  | .null => false
  | .bool b => b
  | .num n => n != 0
  | .str s => s != ""
  | .arr _ => true
  | .obj _ => true

/-- JavaScript `a || b` as used in the constructor (`config.endpoint ||
"https://logarc.com/api"` and friends): the left operand when truthy,
otherwise the right. -/
def jsOr (a b : JValue) : JValue :=
  if a.truthy then a else b

/-- Errors the client can raise.  `projectKeyNotFound` is
`ProjectKeyNotFoundException`, `invalidEnvironment` is the generic
`Error("Invalid environment: ...")`, `invalidProjectKey` is
`InvalidProjectKeyException` (HTTP 422), `httpError` is an axios rejection
carrying `err.response` (status and body), and `networkError` is an axios
rejection with no response (message and stack). -/
inductive JsError where
  | projectKeyNotFound : JsError
  | invalidEnvironment (env : JValue) : JsError
  | invalidProjectKey : JsError
  | httpError (status : Nat) (body : JValue) : JsError
  | networkError (message : String) (stack : String) : JsError

/-- Constructor configuration object.  Absent properties are `undefined`,
matching a JavaScript object literal with the key omitted. -/
structure Config where
  project_key : JValue := .undefined
  endpoint : JValue := .undefined
  env : JValue := .undefined
  timezone : JValue := .undefined

/-- Membership test of `Object.values(AppEnv).includes(v)`: the four frozen
`AppEnv` string values are `"local"`, `"development"`, `"staging"` and
`"production"`; `includes` uses SameValueZero, so only the exact strings
match. -/
def isAppEnv : JValue → Bool
  | .str s => s == "local" || s == "development" || s == "staging" || s == "production"
  | _ => false

/-- Normalized client state after a successful construction: the fields
assigned by the constructor. -/
structure LogArcService where
  projectKey : JValue
  endpoint : JValue
  env : JValue
  timezone : JValue
  user : JValue

/-- Embedding of `getProjectKey(config)`: `if (!config.project_key) throw
new ProjectKeyNotFoundException(); return config.project_key;`. -/
def getProjectKey (config : Config) : Except JsError JValue :=
  if !config.project_key.truthy then .error .projectKeyNotFound
  else .ok config.project_key

/-- Embedding of `constructor(config = {}, user = null)`: fetch the project
key first (a missing or empty key throws before anything else), apply the
`||` defaults for endpoint, environment and timezone, store the user, then
validate the environment against the `AppEnv` values and throw on a
mismatch.  The constructor touches no transport, hence no oracle
parameter. -/
def LogArcService.make (config : Config) (user : JValue) : Except JsError LogArcService :=
  match getProjectKey config with
  | .error e => .error e
  | .ok pk =>
    let svc : LogArcService :=
      { projectKey := pk
        endpoint := jsOr config.endpoint (.str "https://logarc.com/api")
        env := jsOr config.env (.str "production")
        timezone := jsOr config.timezone (.str "UTC")
        user := user }
    if isAppEnv svc.env then .ok svc
    else .error (.invalidEnvironment svc.env)

/-- Numeric value of a digit list, as `parseInt(s, 10)` computes it on a
string of decimal digits. -/
def digitsToNat (ds : List Char) : Nat :=
  ds.foldl (fun acc c => acc * 10 + (c.toNat - 48)) 0

/-- Greedy split of the longest digit prefix, the behaviour of a greedy
unanchored run of the digit class in the caller-line pattern. -/
def takeDigits : List Char → List Char × List Char
  | [] => ([], [])
  | c :: cs =>
    if c.isDigit then
      let p := takeDigits cs
      (c :: p.1, p.2)
    else ([], c :: cs)

/-- Matcher for the tail of the caller-line pattern after the second
capture group: a colon, one or more digits (the captured line number), a
colon, one or more digits (the column), and a closing parenthesis.
Trailing characters are allowed since the pattern is unanchored. -/
def matchTail : List Char → Option Nat
  | ':' :: cs =>
    let p1 := takeDigits cs
    if p1.1.isEmpty then none
    else
      match p1.2 with
      | ':' :: cs2 =>
        let p2 := takeDigits cs2
        if p2.1.isEmpty then none
        else
          match p2.2 with
          | ')' :: _ => some (digitsToNat p1.1)
          | _ => none
      | _ => none
  | _ => none

/-- Lazy second capture group: one non-newline character at a time, testing
after each extension whether the rest of the pattern matches, so the
shortest successful extension wins, as the lazy quantifier does. -/
def matchGroup2 (acc : List Char) : List Char → Option (List Char × Nat)
  | [] => none
  | c :: cs =>
    if c = '\n' then none
    else
      match matchTail cs with
      | some n => some ((c :: acc).reverse, n)
      | none => matchGroup2 (c :: acc) cs

/-- Continuation after the first capture group: a space, an opening
parenthesis, then the second group and the numeric tail. -/
def matchAfterGroup1 : List Char → Option (List Char × Nat)
  | ' ' :: '(' :: cs => matchGroup2 [] cs
  | _ => none

/-- Lazy first capture group with backtracking: extend one non-newline
character at a time and test the whole continuation after each extension;
the shortest extension whose continuation succeeds wins. -/
def matchGroup1 (acc : List Char) : List Char → Option (List Char × List Char × Nat)
  | [] => none
  | c :: cs =>
    if c = '\n' then none
    else
      match matchAfterGroup1 cs with
      | some (g2, n) => some ((c :: acc).reverse, g2, n)
      | none => matchGroup1 (c :: acc) cs

/-- Attempt to match the full caller-line pattern at the start of the
character list: the literal text `at` and a space, then the two lazy
groups and the numeric tail. -/
def matchPatternAt : List Char → Option (List Char × List Char × Nat)
  | 'a' :: 't' :: ' ' :: cs => matchGroup1 [] cs
  | _ => none

/-- Unanchored search: try the pattern at every start position from the
left and return the first match, the leftmost-match rule. -/
def searchPattern : List Char → Option (List Char × List Char × Nat)
  | [] => none
  | c :: cs =>
    match matchPatternAt (c :: cs) with
    | some r => some r
    | none => searchPattern cs

/-- Embedding of `callerLine.match(/at (.+?) \((.+?):(\d+):\d+\)/)` as the
source applies it at `src/index.js:133`: `none` when the regex does not
match, otherwise the first capture group (symbolic name), the second
(file path) and the parsed line number `parseInt(match[3], 10)`. -/
def matchCallerLine (s : String) : Option (String × String × Nat) :=
  match searchPattern s.data with
  | none => none
  | some (g1, g2, n) => some (String.mk g1, String.mk g2, n)

/-- Embedding of the caller-metadata block of `log` (`src/index.js:131-136`):
take line index 3 of the split stack (empty when absent, as `stack[3] || ""`),
run the pattern, and fall back to the sentinels `"UnknownClass"` and `0`
when there is no match.  The input is the stack already split on
newlines. -/
def extractCaller (stack : List String) : String × Nat :=
  let callerLine := stack.getD 3 ""
  match matchCallerLine callerLine with
  | some m => (m.1, m.2.2)
  | none => ("UnknownClass", 0)

/-- Wall-clock fields of the current moment in the configured timezone, as
produced by `moment().tz(this.timezone)`; the timezone conversion itself is
delegated to moment-timezone and is an input here. -/
structure LocalTime where
  year : Nat
  month : Nat
  day : Nat
  hour : Nat
  minute : Nat
  second : Nat

/-- Two-digit zero padding, the moment tokens `MM`, `DD`, `HH`, `mm`,
`ss`. -/
def pad2 (n : Nat) : String :=
  if n < 10 then "0" ++ toString n else toString n

/-- Four-digit zero padding, the moment token `YYYY`. -/
def pad4 (n : Nat) : String :=
  if n < 10 then "000" ++ toString n
  else if n < 100 then "00" ++ toString n
  else if n < 1000 then "0" ++ toString n
  else toString n

/-- The date-time part of the moment format `YYYY-MM-DDTHH:mm:ss`: the
local wall-clock fields, zero padded, with the literal separators. -/
def localClockString (t : LocalTime) : String :=
  pad4 t.year ++ "-" ++ pad2 t.month ++ "-" ++ pad2 t.day ++ "T" ++
    pad2 t.hour ++ ":" ++ pad2 t.minute ++ ":" ++ pad2 t.second

/-- Embedding of `moment().tz(this.timezone).format("YYYY-MM-DDTHH:mm:ss[Z]")`
(`src/index.js:141`): the escaped `[Z]` appends a literal `Z` character to
the local wall-clock string, whatever the timezone. -/
def formatTimestamp (t : LocalTime) : String :=
  localClockString t ++ "Z"

/-- The JSON body POSTed to `{endpoint}/log`, the object literal built at
`src/index.js:139-150`. -/
structure LogPayload where
  project_key : JValue
  log_timestamp : String
  app_env : JValue
  level : String
  class_name : String
  method_name : String
  line_number : Nat
  message : JValue
  data : JValue
  user : JValue

/-- Outcome of one `axios.post`: either an HTTP response with a status and
decoded body (axios resolves exactly on 2xx and otherwise rejects with
`err.response` set), or a network-level failure with no response, carrying
`err.message` and `err.stack`. -/
inductive HttpOutcome where
  | response (status : Nat) (body : JValue) : HttpOutcome
  | networkFailure (message : String) (stack : String) : HttpOutcome

/-- One `console.error("LogArc request failed", ...)` record: either the
status-and-body object of an HTTP error response, or the message-and-stack
object of a network failure. -/
inductive Diagnostic where
  | httpFailure (status : Nat) (body : JValue) : Diagnostic
  | networkFailure (message : String) (stack : String) : Diagnostic

/-- Observable effects of one logging call: the axios requests issued (in
order), the `console.error` diagnostics emitted (in order, always before
the result settles), and the settled outcome of the returned promise. -/
structure LogEffects where
  requests : List LogPayload
  diagnostics : List Diagnostic
  result : Except JsError JValue

/-- Axios resolves a response exactly when `200 <= status < 300` (its
default `validateStatus`). -/
def is2xx (status : Nat) : Bool :=
  200 ≤ status && status < 300

/-- Embedding of `sendLogRequest(data)` (`src/index.js:160-190`) against a
transport oracle.  On 2xx resolve with `response.data`; on a 422 response
throw `InvalidProjectKeyException` before any diagnostic; on any other
error response emit the status-and-body diagnostic and rethrow the axios
error; on a network failure emit the message-and-stack diagnostic and
rethrow.  Exactly one request is issued in every case. -/
def sendLogRequest (server : LogPayload → HttpOutcome) (payload : LogPayload) : LogEffects :=
  match server payload with
  | .response status body =>
    if is2xx status then
      { requests := [payload], diagnostics := [], result := .ok body }
    else if status = 422 then
      { requests := [payload], diagnostics := [], result := .error .invalidProjectKey }
    else
      { requests := [payload]
        diagnostics := [.httpFailure status body]
        result := .error (.httpError status body) }
  | .networkFailure m s =>
    { requests := [payload]
      diagnostics := [.networkFailure m s]
      result := .error (.networkError m s) }

/-- The payload `logData` built by `log` (`src/index.js:139-150`): caller
metadata from the split stack (the class name duplicated into
`method_name`, as the source comments), the formatted timestamp, the
stored configuration fields, the call arguments, and `this.user || null`. -/
def payloadOf (svc : LogArcService) (stack : List String) (t : LocalTime)
    (level : String) (message : JValue) (data : JValue) : LogPayload :=
  let caller := extractCaller stack
  { project_key := svc.projectKey
    log_timestamp := formatTimestamp t
    app_env := svc.env
    level := level
    class_name := caller.1
    method_name := caller.1
    line_number := caller.2
    message := message
    data := data
    user := jsOr svc.user .null }

/-- Embedding of `async log(level, message = null, data = null)`
(`src/index.js:129-154`): build the payload, then
`await this.sendLogRequest(logData);` — the awaited value is discarded and
not returned, so on success the promise returned by `log` resolves with
`undefined`; a rejection propagates unchanged. -/
def LogArcService.log (svc : LogArcService) (server : LogPayload → HttpOutcome)
    (stack : List String) (t : LocalTime)
    (level : String) (message : JValue) (data : JValue) : LogEffects :=
  let payload := payloadOf svc stack t level message data
  let eff := sendLogRequest server payload
  { eff with
    result := match eff.result with
              | .ok _ => .ok .undefined
              | .error e => .error e }

/-- What a synchronous JavaScript function hands back to its caller: plain
`undefined`, or a promise together with its eventual settled outcome. -/
inductive JsReturn where
  | undef : JsReturn
  | promise (outcome : Except JsError JValue) : JsReturn

/-- Result of calling one public severity method: the effects of the
logging operation it starts, and the value returned to the caller.  Each
severity method in the source reads `this.log(level, message, data);` with
no `return` and no `await`, so the method returns `undefined`
(`JsReturn.undef`) while the promise created by `log` runs unobserved; had
the source read `return this.log(...)`, `returned` would be
`JsReturn.promise` of the log result. -/
structure SeverityCall where
  effects : LogEffects
  returned : JsReturn

/-- Embedding of `debug(message = null, data = null)` (`src/index.js:73-75`). -/
def LogArcService.debug (svc : LogArcService) (server : LogPayload → HttpOutcome)
    (stack : List String) (t : LocalTime) (message : JValue) (data : JValue) : SeverityCall :=
  { effects := svc.log server stack t "debug" message data, returned := .undef }

/-- Embedding of `info(message = null, data = null)` (`src/index.js:80-82`). -/
def LogArcService.info (svc : LogArcService) (server : LogPayload → HttpOutcome)
    (stack : List String) (t : LocalTime) (message : JValue) (data : JValue) : SeverityCall :=
  { effects := svc.log server stack t "info" message data, returned := .undef }

/-- Embedding of `error(message = null, data = null)` (`src/index.js:87-89`). -/
def LogArcService.error (svc : LogArcService) (server : LogPayload → HttpOutcome)
    (stack : List String) (t : LocalTime) (message : JValue) (data : JValue) : SeverityCall :=
  { effects := svc.log server stack t "error" message data, returned := .undef }

/-- Embedding of `notice(message = null, data = null)` (`src/index.js:94-96`). -/
def LogArcService.notice (svc : LogArcService) (server : LogPayload → HttpOutcome)
    (stack : List String) (t : LocalTime) (message : JValue) (data : JValue) : SeverityCall :=
  { effects := svc.log server stack t "notice" message data, returned := .undef }

/-- Embedding of `warning(message = null, data = null)` (`src/index.js:101-103`). -/
def LogArcService.warning (svc : LogArcService) (server : LogPayload → HttpOutcome)
    (stack : List String) (t : LocalTime) (message : JValue) (data : JValue) : SeverityCall :=
  { effects := svc.log server stack t "warning" message data, returned := .undef }

/-- Embedding of `critical(message = null, data = null)` (`src/index.js:108-110`). -/
def LogArcService.critical (svc : LogArcService) (server : LogPayload → HttpOutcome)
    (stack : List String) (t : LocalTime) (message : JValue) (data : JValue) : SeverityCall :=
  { effects := svc.log server stack t "critical" message data, returned := .undef }

/-- Embedding of `alert(message = null, data = null)` (`src/index.js:115-117`). -/
def LogArcService.alert (svc : LogArcService) (server : LogPayload → HttpOutcome)
    (stack : List String) (t : LocalTime) (message : JValue) (data : JValue) : SeverityCall :=
  { effects := svc.log server stack t "alert" message data, returned := .undef }

/-- Embedding of `emergency(message = null, data = null)` (`src/index.js:122-124`). -/
def LogArcService.emergency (svc : LogArcService) (server : LogPayload → HttpOutcome)
    (stack : List String) (t : LocalTime) (message : JValue) (data : JValue) : SeverityCall :=
  { effects := svc.log server stack t "emergency" message data, returned := .undef }

/-- Configuration with every property omitted, the all-defaults object. -/
def cfgEmpty : Config := {}

/-- Configuration supplying only a project key, `{project_key: "abc"}`. -/
def cfgAbc : Config := { project_key := .str "abc" }

/-- Configuration with a valid key and an empty-string environment. -/
def cfgEmptyEnv : Config := { project_key := .str "abc", env := .str "" }

/-- Configuration with a valid key and an unrecognized environment. -/
def cfgBadEnv : Config := { project_key := .str "k", env := .str "bogus" }

/-- Configuration with no project key and an unrecognized environment. -/
def cfgNoKeyBadEnv : Config := { env := .str "bogus" }

/-- The client state `new LogArcService({project_key: "abc"})` produces:
default endpoint, production environment, UTC timezone, null user. -/
def svcAbc : LogArcService :=
  { projectKey := .str "abc"
    endpoint := .str "https://logarc.com/api"
    env := .str "production"
    timezone := .str "UTC"
    user := .null }

/-- A fixed sample instant. -/
def timeSample : LocalTime :=
  { year := 2024, month := 3, day := 7, hour := 9, minute := 5, second := 30 }

/-- A transport that always reports a network-level failure (no response
received). -/
def netFailServer : LogPayload → HttpOutcome :=
  fun _ => .networkFailure "connect ECONNREFUSED" "Error: connect ECONNREFUSED"

/-- A transport that always answers HTTP 500 with body `"boom"`. -/
def server500 : LogPayload → HttpOutcome :=
  fun _ => .response 500 (.str "boom")

/-- A transport that always answers HTTP 200 with body `"ok"`. -/
def server200 : LogPayload → HttpOutcome :=
  fun _ => .response 200 (.str "ok")

/-- A realistic split stack: error header, the `log` frame, the severity
method frame, then the user frame at index 3. -/
def sampleStack : List String :=
  [ "Error"
  , "    at LogArcService.log (/app/node_modules/logarc/index.js:131:19)"
  , "    at LogArcService.info (/app/node_modules/logarc/index.js:81:10)"
  , "    at main (/app/app.js:10:5)" ]

/-- Every branch of `sendLogRequest` issues exactly the one `axios.post`
with the given payload. -/
theorem sendLogRequest_requests_eq (server : LogPayload → HttpOutcome) (payload : LogPayload) :
    (sendLogRequest server payload).requests = [payload] := by
  unfold sendLogRequest
  cases h : server payload with
  | response status body =>
    dsimp only
    split
    · rfl
    · split
      · rfl
      · rfl
  | networkFailure m s => rfl

/-- One call to `log` issues exactly the one request carrying the payload
it built. -/
theorem log_requests_eq (svc : LogArcService) (server : LogPayload → HttpOutcome)
    (stack : List String) (t : LocalTime) (level : String) (msg data : JValue) :
    (svc.log server stack t level msg data).requests =
      [payloadOf svc stack t level msg data] :=
  sendLogRequest_requests_eq server (payloadOf svc stack t level msg data)

/-- C1: the claim states that every severity method returns an awaitable
whose rejection surfaces every delivery failure.  Evaluated on the code,
`debug` (like all eight severity methods) invokes `this.log(...)` with no
`return` and no `await`, so the caller receives plain `undefined`
(`JsReturn.undef`) while the promise created by `log` rejects unobserved:
here the transport fails, the background operation settles on the network
error, and the value returned to the caller carries no rejection at all. -/
theorem c1_delivery_failure_not_observable :
    (svcAbc.debug netFailServer sampleStack timeSample .null .null).returned = JsReturn.undef
    ∧ (svcAbc.debug netFailServer sampleStack timeSample .null .null).effects.result =
        .error (.networkError "connect ECONNREFUSED" "Error: connect ECONNREFUSED") :=
  ⟨rfl, rfl⟩

/-- C2: against a server answering HTTP 422, the logging operation rejects
with `InvalidProjectKeyException` (`JsError.invalidProjectKey`) and emits
no generic diagnostic — the typed error supersedes the generic
transport-error handling, which is skipped entirely for 422. -/
theorem c2_http422_rejects_invalid_project_key (svc : LogArcService) (body : JValue)
    (stack : List String) (t : LocalTime) (level : String) (msg data : JValue) :
    (svc.log (fun _ => .response 422 body) stack t level msg data).result =
        .error .invalidProjectKey
    ∧ (svc.log (fun _ => .response 422 body) stack t level msg data).diagnostics = [] :=
  ⟨rfl, rfl⟩

/-- C3: a configuration whose project key is absent (`undefined`) or the
empty string makes construction fail with `ProjectKeyNotFoundException`;
the constructor has no access to the transport, so no network call can be
attempted. -/
theorem c3_missing_project_key (config : Config) (user : JValue)
    (h : config.project_key = JValue.undefined ∨ config.project_key = JValue.str "") :
    LogArcService.make config user = .error .projectKeyNotFound := by
  unfold LogArcService.make getProjectKey
  rcases h with h | h <;> rw [h] <;> rfl

/-- Witness for C3 at the all-defaults configuration. -/
theorem c3_missing_project_key_witness :
    LogArcService.make cfgEmpty JValue.null = .error .projectKeyNotFound :=
  c3_missing_project_key cfgEmpty JValue.null (Or.inl rfl)

/-- C10: when the configuration both lacks a project key and carries an
unrecognized environment value, construction fails with
`ProjectKeyNotFoundException`, not the invalid-environment error: the
project-key check at line 48 runs before the environment validation at
line 55. -/
theorem c10_key_check_precedes_env_check (config : Config) (user : JValue) (s : String)
    (hkey : config.project_key = JValue.undefined ∨ config.project_key = JValue.str "")
    (_henv : config.env = JValue.str s)
    (_hbad : isAppEnv (JValue.str s) = false) :
    LogArcService.make config user = .error .projectKeyNotFound := by
  unfold LogArcService.make getProjectKey
  rcases hkey with h | h <;> rw [h] <;> rfl

/-- Witness for C10: no project key together with environment `"bogus"`
yields the missing-key error. -/
theorem c10_key_check_precedes_env_check_witness :
    LogArcService.make cfgNoKeyBadEnv JValue.null = .error .projectKeyNotFound :=
  c10_key_check_precedes_env_check cfgNoKeyBadEnv JValue.null "bogus" (Or.inl rfl) rfl rfl

/-- C4 counterexample: the claim quantifies over every configuration whose
environment value is present but outside the four enumerated values, yet
with `project_key: "abc"` and `env: ""` the empty string is present and is
not an `AppEnv` value, and construction nevertheless succeeds: `"" ||
"production"` discards the falsy empty string, so the client is built with
the production environment instead of failing. -/
theorem c4_claim_counterexample :
    cfgEmptyEnv.env = JValue.str ""
    ∧ isAppEnv (JValue.str "") = false
    ∧ LogArcService.make cfgEmptyEnv JValue.null = .ok svcAbc :=
  ⟨rfl, rfl, rfl⟩

/-- C4 as amended: when the project key is truthy (so the key check
passes) and the environment is a present, non-empty string outside the
four enumerated values, construction fails with the invalid-environment
error carrying that value. -/
theorem c4_invalid_environment_amended (config : Config) (user : JValue) (s : String)
    (hkey : config.project_key.truthy = true)
    (henv : config.env = JValue.str s)
    (hne : s ≠ "")
    (hbad : isAppEnv (JValue.str s) = false) :
    LogArcService.make config user = .error (.invalidEnvironment (JValue.str s)) := by
  have hts : (JValue.str s).truthy = true := by simp [JValue.truthy, hne]
  simp [LogArcService.make, getProjectKey, jsOr, hkey, henv, hts, hbad]

/-- Witness for the amended C4 at `{project_key: "k", env: "bogus"}`. -/
theorem c4_invalid_environment_amended_witness :
    LogArcService.make cfgBadEnv JValue.null = .error (.invalidEnvironment (JValue.str "bogus")) :=
  c4_invalid_environment_amended cfgBadEnv JValue.null "bogus" rfl rfl (by decide) rfl

/-- C5: each of the eight severity methods issues exactly one outbound
request, whose payload carries the method name as `level` and the call
arguments as `message` and `data` (both `null` when omitted, the default
arguments of the source); and the client built from a configuration
supplying only the project key stamps `app_env` `"production"` and `user`
`null` on the payload. -/
theorem c5_one_request_level_message_data :
    (∀ (svc : LogArcService) (server : LogPayload → HttpOutcome) (stack : List String)
        (t : LocalTime) (msg data : JValue),
        (svc.debug server stack t msg data).effects.requests = [payloadOf svc stack t "debug" msg data]
      ∧ (svc.info server stack t msg data).effects.requests = [payloadOf svc stack t "info" msg data]
      ∧ (svc.notice server stack t msg data).effects.requests = [payloadOf svc stack t "notice" msg data]
      ∧ (svc.warning server stack t msg data).effects.requests = [payloadOf svc stack t "warning" msg data]
      ∧ (svc.error server stack t msg data).effects.requests = [payloadOf svc stack t "error" msg data]
      ∧ (svc.critical server stack t msg data).effects.requests = [payloadOf svc stack t "critical" msg data]
      ∧ (svc.alert server stack t msg data).effects.requests = [payloadOf svc stack t "alert" msg data]
      ∧ (svc.emergency server stack t msg data).effects.requests = [payloadOf svc stack t "emergency" msg data])
    ∧ (∀ (svc : LogArcService) (stack : List String) (t : LocalTime) (level : String)
        (msg data : JValue),
        (payloadOf svc stack t level msg data).level = level
      ∧ (payloadOf svc stack t level msg data).message = msg
      ∧ (payloadOf svc stack t level msg data).data = data)
    ∧ LogArcService.make cfgAbc JValue.null = .ok svcAbc
    ∧ (∀ (stack : List String) (t : LocalTime),
        (payloadOf svcAbc stack t "info" JValue.null JValue.null).app_env = JValue.str "production"
      ∧ (payloadOf svcAbc stack t "info" JValue.null JValue.null).user = JValue.null) :=
  ⟨fun svc server stack t msg data =>
    ⟨log_requests_eq svc server stack t "debug" msg data
    , log_requests_eq svc server stack t "info" msg data
    , log_requests_eq svc server stack t "notice" msg data
    , log_requests_eq svc server stack t "warning" msg data
    , log_requests_eq svc server stack t "error" msg data
    , log_requests_eq svc server stack t "critical" msg data
    , log_requests_eq svc server stack t "alert" msg data
    , log_requests_eq svc server stack t "emergency" msg data⟩
  , fun _ _ _ _ _ _ => ⟨rfl, rfl, rfl⟩
  , rfl
  , fun _ _ => ⟨rfl, rfl⟩⟩

/-- Unfolding equation of `log`: it forwards the requests and diagnostics
of `sendLogRequest` on the payload it built, maps a resolved value to
`undefined` (the awaited value is discarded) and propagates a rejection
unchanged. -/
theorem log_unfold (svc : LogArcService) (server : LogPayload → HttpOutcome)
    (stack : List String) (t : LocalTime) (level : String) (msg data : JValue) :
    svc.log server stack t level msg data =
      { requests := (sendLogRequest server (payloadOf svc stack t level msg data)).requests
        diagnostics := (sendLogRequest server (payloadOf svc stack t level msg data)).diagnostics
        result :=
          match (sendLogRequest server (payloadOf svc stack t level msg data)).result with
          | .ok _ => .ok .undefined
          | .error e => .error e } :=
  rfl

/-- The non-422 HTTP error branch of `sendLogRequest`, as one record. -/
theorem sendLogRequest_http_error (server : LogPayload → HttpOutcome) (payload : LogPayload)
    (status : Nat) (body : JValue)
    (hresp : server payload = .response status body)
    (h2xx : is2xx status = false) (h422 : status ≠ 422) :
    sendLogRequest server payload =
      { requests := [payload]
        diagnostics := [.httpFailure status body]
        result := .error (.httpError status body) } := by
  unfold sendLogRequest
  rw [hresp]
  simp [h2xx, h422]

/-- The network-failure branch of `sendLogRequest`, as one record. -/
theorem sendLogRequest_network (server : LogPayload → HttpOutcome) (payload : LogPayload)
    (m s : String)
    (hresp : server payload = .networkFailure m s) :
    sendLogRequest server payload =
      { requests := [payload]
        diagnostics := [.networkFailure m s]
        result := .error (.networkError m s) } := by
  unfold sendLogRequest
  rw [hresp]

/-- C6: when the server answers a non-2xx, non-422 status, the call emits
the status-and-body diagnostic and rejects with the original axios error
unchanged; when the transport fails at the network level, it emits the
message-and-stack diagnostic and rejects with the original error
unchanged.  Diagnostics are paired with the settled result, the emission
happening in the straight-line code before the rethrow. -/
theorem c6_diagnostic_then_rethrow (svc : LogArcService) (server : LogPayload → HttpOutcome)
    (stack : List String) (t : LocalTime) (level : String) (msg data : JValue) :
    (∀ (status : Nat) (body : JValue),
        server (payloadOf svc stack t level msg data) = .response status body →
        is2xx status = false → status ≠ 422 →
        (svc.log server stack t level msg data).diagnostics = [.httpFailure status body]
        ∧ (svc.log server stack t level msg data).result = .error (.httpError status body))
    ∧ (∀ (m s : String),
        server (payloadOf svc stack t level msg data) = .networkFailure m s →
        (svc.log server stack t level msg data).diagnostics = [.networkFailure m s]
        ∧ (svc.log server stack t level msg data).result = .error (.networkError m s)) := by
  constructor
  · intro status body hresp h2xx h422
    rw [log_unfold, sendLogRequest_http_error server _ status body hresp h2xx h422]
    exact ⟨rfl, rfl⟩
  · intro m s hresp
    rw [log_unfold, sendLogRequest_network server _ m s hresp]
    exact ⟨rfl, rfl⟩

/-- Witness for C6: an HTTP 500 answer with body `"boom"` and a network
failure, both at concrete inputs. -/
theorem c6_diagnostic_then_rethrow_witness :
    (svcAbc.log server500 sampleStack timeSample "error" .null .null).diagnostics =
        [.httpFailure 500 (.str "boom")]
    ∧ (svcAbc.log server500 sampleStack timeSample "error" .null .null).result =
        .error (.httpError 500 (.str "boom"))
    ∧ (svcAbc.log netFailServer sampleStack timeSample "error" .null .null).diagnostics =
        [.networkFailure "connect ECONNREFUSED" "Error: connect ECONNREFUSED"]
    ∧ (svcAbc.log netFailServer sampleStack timeSample "error" .null .null).result =
        .error (.networkError "connect ECONNREFUSED" "Error: connect ECONNREFUSED") := by
  have h1 := (c6_diagnostic_then_rethrow svcAbc server500 sampleStack timeSample "error"
      .null .null).1 500 (.str "boom") rfl rfl (by decide)
  have h2 := (c6_diagnostic_then_rethrow svcAbc netFailServer sampleStack timeSample "error"
      .null .null).2 "connect ECONNREFUSED" "Error: connect ECONNREFUSED" rfl
  exact ⟨h1.1, h1.2, h2.1, h2.2⟩

/-- C7 counterexample: the claim states that on an HTTP 2xx answer the
awaitable returned to the caller resolves with the decoded response body.
At this concrete input the server answers 200 with body `"ok"`:
`sendLogRequest` does resolve with that body, but `log` awaits it without
returning it, so the promise `log` creates resolves with `undefined`, and
`info` hands the caller plain `undefined` rather than any awaitable at
all — the decoded body never reaches the caller. -/
theorem c7_claim_counterexample :
    (svcAbc.info server200 sampleStack timeSample .null .null).returned = JsReturn.undef
    ∧ (svcAbc.log server200 sampleStack timeSample "info" .null .null).result =
        .ok JValue.undefined
    ∧ (sendLogRequest server200 (payloadOf svcAbc sampleStack timeSample "info" .null .null)).result =
        .ok (.str "ok")
    ∧ JValue.undefined ≠ JValue.str "ok" :=
  ⟨rfl, rfl, rfl, fun h => JValue.noConfusion h⟩

/-- C7 as amended: on an HTTP 2xx answer the internal `sendLogRequest`
operation resolves with the decoded response body; the `log` operation
that awaits it discards the value and resolves with `undefined`, and the
public severity methods return `undefined` rather than the awaitable. -/
theorem c7_two_xx_resolves_with_body_internally (svc : LogArcService)
    (server : LogPayload → HttpOutcome) (stack : List String) (t : LocalTime)
    (level : String) (msg data : JValue) (status : Nat) (body : JValue)
    (hresp : server (payloadOf svc stack t level msg data) = .response status body)
    (h2xx : is2xx status = true) :
    (sendLogRequest server (payloadOf svc stack t level msg data)).result = .ok body
    ∧ (svc.log server stack t level msg data).result = .ok .undefined := by
  have hsend : sendLogRequest server (payloadOf svc stack t level msg data) =
      { requests := [payloadOf svc stack t level msg data]
        diagnostics := []
        result := .ok body } := by
    unfold sendLogRequest
    rw [hresp]
    simp [h2xx]
  constructor
  · rw [hsend]
  · rw [log_unfold, hsend]

/-- Witness for the amended C7 at a concrete 200 answer with body `"ok"`. -/
theorem c7_two_xx_resolves_with_body_internally_witness :
    (sendLogRequest server200 (payloadOf svcAbc sampleStack timeSample "info" .null .null)).result =
        .ok (.str "ok")
    ∧ (svcAbc.log server200 sampleStack timeSample "info" .null .null).result =
        .ok .undefined :=
  c7_two_xx_resolves_with_body_internally svcAbc server200 sampleStack timeSample "info"
    .null .null 200 (.str "ok") rfl rfl

/-- C8: the payload's `log_timestamp` is exactly the zero-padded
`YYYY-MM-DDTHH:mm:ss` rendering of the configured timezone's wall-clock
fields for the moment of the call, with one literal `Z` character
appended — not a UTC conversion; evaluated at a sample instant the field
reads `2024-03-07T09:05:30Z`. -/
theorem c8_timestamp_local_clock_literal_z :
    (∀ (svc : LogArcService) (stack : List String) (t : LocalTime) (level : String)
        (msg data : JValue),
        (payloadOf svc stack t level msg data).log_timestamp = localClockString t ++ "Z")
    ∧ formatTimestamp timeSample = "2024-03-07T09:05:30Z"
    ∧ localClockString timeSample = "2024-03-07T09:05:30" :=
  ⟨fun _ _ _ _ _ _ => rfl, rfl, rfl⟩

/-- C9: caller-metadata extraction is a total function of the split stack:
when the stack has no line at index 3, or the caller-line pattern does not
match there, it yields the sentinels `"UnknownClass"` and `0`; when the
pattern does match, it yields the first capture group and the parsed line
number.  Totality of the Lean function embeds the never-throws claim. -/
theorem c9_caller_extraction_sentinels (stack : List String) :
    (stack.length ≤ 3 → extractCaller stack = ("UnknownClass", 0))
    ∧ (matchCallerLine (stack.getD 3 "") = none → extractCaller stack = ("UnknownClass", 0))
    ∧ (∀ (cls file : String) (line : Nat),
        matchCallerLine (stack.getD 3 "") = some (cls, file, line) →
        extractCaller stack = (cls, line)) := by
  refine ⟨?_, ?_, ?_⟩
  · intro h
    simp only [extractCaller]
    rw [List.getD_eq_default _ _ h]
    rfl
  · intro h
    simp only [extractCaller]
    rw [h]
  · intro cls file line h
    simp only [extractCaller]
    rw [h]

/-- Witness for C9: the empty stack falls back to the sentinels, and the
realistic sample stack yields the caller name and line from its fourth
line. -/
theorem c9_caller_extraction_sentinels_witness :
    extractCaller [] = ("UnknownClass", 0)
    ∧ extractCaller sampleStack = ("main", 10) :=
  ⟨(c9_caller_extraction_sentinels []).1 (by decide),
   (c9_caller_extraction_sentinels sampleStack).2.2 "main" "/app/app.js" 10 (by decide)⟩
